import Mathlib

/-!
Shallow embedding of the OIDC JWT issuer Flows app.

The embedding follows the TypeScript sources:
* `src/crypto.ts` : `hashConfig`, `generateKeyAndToken`, `generateToken`
  (claims-payload construction), JWT creation.
* `main.ts` : `onSync` (reconciliation state machine), `onTimer` (rotation),
  `handleInitialSetup`, `handleConfigChange`, `calculateRotationInterval`,
  `createSignalUpdates`.
* `src/handlers.ts` / `src/types.ts` : `handleJWKs`, the `CONSTANTS` record.

External, nondeterministic effects (WebCrypto key generation, `Date.now()`,
`crypto.randomUUID()`, timer-handle allocation) are passed in explicitly as
oracle parameters; the KV store and the published signals are explicit state.
-/

namespace OIDC

/-- JSON-like values appearing in claim payloads (the `additionalClaims`
configuration object and the standard claims are strings or numbers). -/
inductive ClaimValue where
  | str (s : String)
  | num (n : Int)
  deriving DecidableEq, Repr

/-- The app configuration (`AppConfig` in `src/types.ts`).  `audience`,
`additionalClaims` and `keyring` are optional (`undefined` when absent);
`additionalClaims` is an insertion-ordered record. -/
structure AppConfig where
  expirationMinutes : Int
  audience : Option String
  additionalClaims : Option (List (String × ClaimValue))
  keyring : Option String
  deriving DecidableEq, Repr

/-- Hex digit used by `JSON.stringify` control-character escapes. -/
def hexDigitChar (n : Nat) : Char :=
  if n < 10 then Char.ofNat (48 + n) else Char.ofNat (87 + n)

/-- `JSON.stringify` escaping of a single character inside a string literal. -/
def jsonEscapeChar (c : Char) : String :=
  if c = '"' then "\\\""
  else if c = '\\' then "\\\\"
  else if c = '\x08' then "\\b"
  else if c = '\x09' then "\\t"
  else if c = '\x0a' then "\\n"
  else if c = '\x0c' then "\\f"
  else if c = '\x0d' then "\\r"
  else if c.toNat < 32 then
    "\\u00" ++ String.singleton (hexDigitChar (c.toNat / 16)) ++
      String.singleton (hexDigitChar (c.toNat % 16))
  else String.singleton c

/-- A JSON string literal, as produced by `JSON.stringify`. -/
def jsonQuote (s : String) : String :=
  "\"" ++ String.join (s.data.map jsonEscapeChar) ++ "\""

/-- Serialization of a claim value. -/
def serializeClaimValue : ClaimValue → String
  | .str s => jsonQuote s
  | .num n => toString n

/-- `JSON.stringify` of a record, keys in insertion order. -/
def jsonObjectStr (l : List (String × ClaimValue)) : String :=
  "\x7b" ++
    String.intercalate ","
      (l.map (fun p => jsonQuote p.1 ++ ":" ++ serializeClaimValue p.2)) ++
  "\x7d"

/-- `JSON.stringify (\x7b expirationMinutes, audience, additionalClaims, keyring \x7d)`
as computed at the top of `hashConfig` in `src/crypto.ts`: fields whose value
is `undefined` are omitted by `JSON.stringify`; the others appear in literal
order. -/
def serializeConfig (config : AppConfig) : String :=
  "\x7b" ++
    String.intercalate ","
      (List.filterMap id
        [ some (jsonQuote "expirationMinutes" ++ ":" ++
            toString config.expirationMinutes)
        , config.audience.map (fun a => jsonQuote "audience" ++ ":" ++ jsonQuote a)
        , config.additionalClaims.map
            (fun m => jsonQuote "additionalClaims" ++ ":" ++ jsonObjectStr m)
        , config.keyring.map (fun k => jsonQuote "keyring" ++ ":" ++ jsonQuote k) ]) ++
  "\x7d"

/-- Wrap an integer into the signed 32-bit range, as JavaScript `| 0`, `& x`
and `<< n` coercions do. -/
def toInt32 (n : Int) : Int := ((n + 2 ^ 31) % 2 ^ 32) - 2 ^ 31

/-- One step of the rolling hash in `hashConfig`:
`hash = (hash << 5) - hash + char; hash = hash & hash`.  `hash << 5` truncates
the shifted value to a signed 32-bit integer, the subtraction and addition are
exact, and `hash & hash` truncates again. -/
def hashStep (h : Int) (c : Char) : Int :=
  toInt32 (toInt32 (h * 32) - h + c.toNat)

/-- The rolling hash of `hashConfig`, folded over the UTF-16 code units of the
serialized configuration (all inputs relevant here are ASCII, where
`charCodeAt` agrees with the code point). -/
def hashString (s : String) : Int := s.data.foldl hashStep 0

/-- `hashConfig` from `src/crypto.ts`: serialize the relevant configuration
subset, roll the 32-bit hash over it, and render it in decimal. -/
def hashConfig (config : AppConfig) : String :=
  toString (hashString (serializeConfig config))

/-- `calculateRotationInterval` from `main.ts`:
`Math.max(5, Math.floor(expirationMinutes / 2))`. -/
def calculateRotationInterval (expirationMinutes : Int) : Int :=
  max 5 (Int.fdiv expirationMinutes 2)

/-- The parsed parts of the app URL used by the code
(`new URL(appUrl).origin` and `new URL(appUrl).hostname`). -/
structure UrlParts where
  origin : String
  hostname : String
  deriving DecidableEq, Repr

/-- JavaScript `a || b` where `a : string | undefined` and `b : string`:
`undefined` and the empty string are falsy. -/
def jsOrString (a : Option String) (b : String) : String :=
  match a with
  | some s => if s = "" then b else s
  | none => b

/-- JavaScript `a || b` where both operands are `string | undefined`. -/
def jsOrOpt (a b : Option String) : Option String :=
  match a with
  | some s => if s = "" then b else some s
  | none => b

/-- JavaScript object-property assignment `obj[k] = v` on an insertion-ordered
record: an existing key keeps its position and gets the new value, a new key
is appended.  This is the semantics of the object literal in `createJWT`'s
payload (`\x7b ...additionalClaims, jti: ..., ... \x7d`). -/
def jsAssign : List (String × ClaimValue) → String → ClaimValue →
    List (String × ClaimValue)
  | [], k, v => [(k, v)]
  | p :: rest, k, v => if p.1 = k then (k, v) :: rest else p :: jsAssign rest k v

/-- Build a JavaScript object from a sequence of property assignments in
order (models an object literal with spreads). -/
def jsObject (assigns : List (String × ClaimValue)) : List (String × ClaimValue) :=
  assigns.foldl (fun acc p => jsAssign acc p.1 p.2) []

/-- Property read `payload[k]` on an insertion-ordered record. -/
def lookupClaim (l : List (String × ClaimValue)) (k : String) : Option ClaimValue :=
  match l.find? (fun p => p.1 = k) with
  | some p => some p.2
  | none => none

/-- The standard claims written after the `...config.additionalClaims` spread
in `generateToken` (`src/crypto.ts`), in source order:
`jti`, `iss`, `sub`, `aud`, `exp`, `iat`, `nbf`. -/
def standardClaims (config : AppConfig) (appUrl : UrlParts) (now : Int)
    (jti : String) : List (String × ClaimValue) :=
  [ ("jti", .str jti)
  , ("iss", .str appUrl.origin)
  , ("sub", .str "flows")
  , ("aud", .str (jsOrString config.audience appUrl.hostname))
  , ("exp", .num (now + config.expirationMinutes * 60))
  , ("iat", .num now)
  , ("nbf", .num now) ]

/-- The claims payload object built in `generateToken`: the
`additionalClaims` spread first, then the standard claims, with
object-literal override semantics. -/
def generateTokenPayload (config : AppConfig) (appUrl : UrlParts) (now : Int)
    (jti : String) : List (String × ClaimValue) :=
  jsObject (config.additionalClaims.getD [] ++ standardClaims config appUrl now jti)

/-- `TokenData` from `src/types.ts`. -/
structure TokenData where
  token : String
  expiresAt : Int
  configHash : String
  deriving DecidableEq, Repr

/-- A public-key record as stored in the app KV store: the string key
(`key:\x7bkeyring\x7d:\x7bkeyId\x7d`), the JWK value (opaque here), and the
TTL window assigned by the store at write time. -/
structure KeyEntry where
  key : String
  value : String
  createdAt : Int
  expiresAt : Int
  deriving DecidableEq, Repr

/-- The app KV store: TTL-bearing public key records, the current token
(`current_token`), and the rotation timer handle (`rotation_timer_id`). -/
structure KVState where
  keys : List KeyEntry
  currentToken : Option TokenData
  rotationTimerId : Option String
  deriving DecidableEq, Repr

/-- Oracle for the nondeterministic inputs of one generation call:
`crypto.randomUUID()` for the key id, the exported public JWK, the wall clock
`Math.floor(Date.now() / 1000)`, and the token's `jti` UUID. -/
structure GenOracle where
  newKeyId : String
  publicKey : String
  now : Int
  jti : String
  deriving DecidableEq, Repr

/-- `CONSTANTS.KEY_GRACE_PERIOD_MINUTES` from `src/types.ts`. -/
def KEY_GRACE_PERIOD_MINUTES : Int := 30

/-- `CONSTANTS.ALGORITHM` from `src/types.ts`. -/
def ALGORITHM : String := "RS256"

/-- `CONSTANTS.KEY_STORE.getKeyPrefix` from `src/types.ts`:
the KV key namespace `key:\x7bkeyring\x7d:` of a keyring. -/
def keyPrefixFor (keyring : String) : String := "key:" ++ keyring ++ ":"

/-- `createJWT` from `src/crypto.ts`, with the RS256 signature abstracted:
the claims only ever compare token strings for identity, never inspect the
signature, so the JWT is modelled as a deterministic encoding of the header
key id and the payload. -/
def createJWT (kid : String) (payload : List (String × ClaimValue)) : String :=
  "jwt." ++ kid ++ "." ++ jsonObjectStr payload

/-- `generateToken` from `src/crypto.ts`: builds the payload, signs it, and
returns the token together with its expiry and the configuration hash taken
at issuance time. -/
def generateToken (config : AppConfig) (appUrl : UrlParts) (kid : String)
    (now : Int) (jti : String) : TokenData :=
  { token := createJWT kid (generateTokenPayload config appUrl now jti)
    expiresAt := now + config.expirationMinutes * 60
    configHash := hashConfig config }

/-- `generateKeyAndToken` from `src/crypto.ts`: generate a fresh key pair and
token, then atomically store the public key (under
`key:\x7bconfig.keyring || "default"\x7d:` with TTL
`(KEY_GRACE_PERIOD_MINUTES + expirationMinutes) * 60` seconds) and the new
current token.  Returns the token data and the updated store. -/
def generateKeyAndToken (config : AppConfig) (appUrl : UrlParts) (o : GenOracle)
    (st : KVState) : TokenData × KVState :=
  let tokenData := generateToken config appUrl o.newKeyId o.now o.jti
  let keyTtlSeconds := (KEY_GRACE_PERIOD_MINUTES + config.expirationMinutes) * 60
  let newKey : KeyEntry :=
    { key := keyPrefixFor (jsOrString config.keyring "default") ++ o.newKeyId
      value := o.publicKey
      createdAt := o.now
      expiresAt := o.now + keyTtlSeconds }
  (tokenData,
   { st with keys := st.keys ++ [newKey], currentToken := some tokenData })

/-- JavaScript `String.prototype.startsWith`, used to model the
prefix-scoped `kv.app.list` pagination in `handleJWKs`. -/
def strStartsWith (s p : String) : Bool := p.data.isPrefixOf s.data

/-- One entry of the JWKS response body: the stored JWK value augmented with
`alg` and the signing-use marker (`handleJWKs` in `src/handlers.ts`). -/
structure JwkOut where
  value : String
  alg : String
  use : String
  deriving DecidableEq, Repr

/-- The JWKS HTTP response: status code and key list. -/
structure JwksResponse where
  statusCode : Nat
  keys : List JwkOut
  deriving DecidableEq, Repr

/-- `handleJWKs` from `src/handlers.ts`.  `signalsKeyring` is
`app.signals.keyring`; the guard `if (!app.signals.keyring)` treats both an
absent and an empty-string signal as falsy and answers 200 with an empty key
set.  Otherwise the handler paginates `kv.app.list` under the keyring's
prefix; the pagination loop visits every matching record, so it is modelled
as a single filter over the store. -/
def handleJWKs (signalsKeyring : Option String) (st : KVState) : JwksResponse :=
  match signalsKeyring with
  | none => { statusCode := 200, keys := [] }
  | some k =>
    if k = "" then { statusCode := 200, keys := [] }
    else
      { statusCode := 200
        keys := (st.keys.filter (fun e => strStartsWith e.key (keyPrefixFor k))).map
          (fun e => { value := e.value, alg := ALGORITHM, use := "sig" }) }

/-- The signal updates object built by `createSignalUpdates` in `main.ts`.
`keyring` is an `Option` because `activeKeyring` can actually be `undefined`
when `config.keyring` is absent, despite its `string` type annotation. -/
structure SignalUpdates where
  token : String
  expiresAt : Int
  issuer : String
  keyring : Option String
  deriving DecidableEq, Repr

/-- `createSignalUpdates` from `main.ts`. -/
def createSignalUpdates (tokenData : TokenData) (appUrl : UrlParts)
    (keyring : Option String) : SignalUpdates :=
  { token := tokenData.token
    expiresAt := tokenData.expiresAt
    issuer := appUrl.origin
    keyring := keyring }

/-- Status returned by a reconciliation pass (`newStatus` plus the optional
`customStatusDescription`). -/
inductive SyncStatus where
  | ready
  | failed (description : String)
  deriving DecidableEq, Repr

/-- The outcome of one `onSync` pass: resulting status, the signal updates
(absent on the failed path), the KV store afterwards, and the timer effects
that were performed (delays armed via `timers.set`, handles cancelled via
`timers.unset`). -/
structure SyncResult where
  status : SyncStatus
  signalUpdates : Option SignalUpdates
  kv : KVState
  timersArmed : List Int
  timersCancelled : List String
  deriving DecidableEq, Repr

/-- Intermediate result of the two `onSync` helpers in `main.ts`. -/
structure HandlerResult where
  tokenData : TokenData
  activeKeyring : Option String
  kv : KVState
  timersArmed : List Int
  timersCancelled : List String
  deriving DecidableEq, Repr

/-- `handleInitialSetup` from `main.ts`: generate the first key and token,
arm the first rotation timer (`calculateRotationInterval * 60` seconds), and
persist the timer handle.  `activeKeyring` is the raw `configKeyring`. -/
def handleInitialSetup (config : AppConfig) (appUrl : UrlParts)
    (configKeyring : Option String) (o : GenOracle) (timerId : String)
    (st : KVState) : HandlerResult :=
  let p := generateKeyAndToken config appUrl o st
  let rotationInterval := calculateRotationInterval config.expirationMinutes
  { tokenData := p.1
    activeKeyring := configKeyring
    kv := { p.2 with rotationTimerId := some timerId }
    timersArmed := [rotationInterval * 60]
    timersCancelled := [] }

/-- `handleConfigChange` from `main.ts`: regenerate key and token, cancel the
previously persisted timer handle when present (`if (existingTimerId)` is a
JavaScript truthiness test), arm a timer at the new interval, and persist its
handle.  `activeKeyring` is the raw `configKeyring`. -/
def handleConfigChange (config : AppConfig) (appUrl : UrlParts)
    (configKeyring : Option String) (o : GenOracle) (timerId : String)
    (st : KVState) : HandlerResult :=
  let p := generateKeyAndToken config appUrl o st
  let cancelled :=
    match st.rotationTimerId with
    | some id => if id = "" then [] else [id]
    | none => []
  let newRotationInterval := calculateRotationInterval config.expirationMinutes
  { tokenData := p.1
    activeKeyring := configKeyring
    kv := { p.2 with rotationTimerId := some timerId }
    timersArmed := [newRotationInterval * 60]
    timersCancelled := cancelled }

/-- `onSync` from `main.ts`.  `signalsKeyring` is the previously published
`app.signals.keyring`; `o` and `timerId` are the oracles for generation and
`timers.set`.  The embedding covers the paths in which the store and timer
operations themselves succeed (the surrounding `try/catch` maps a thrown
error to a generic failed status). -/
def onSync (config : AppConfig) (appUrl : UrlParts) (signalsKeyring : Option String)
    (o : GenOracle) (timerId : String) (st : KVState) : SyncResult :=
  if config.expirationMinutes < 10 then
    { status := .failed "Token expiration time must be at least 10 minutes"
      signalUpdates := none
      kv := st
      timersArmed := []
      timersCancelled := [] }
  else
    let currentConfigHash := hashConfig config
    let configKeyring := config.keyring
    let currentKeyring := jsOrOpt signalsKeyring configKeyring
    match st.currentToken with
    | none =>
      let h := handleInitialSetup config appUrl configKeyring o timerId st
      { status := .ready
        signalUpdates := some (createSignalUpdates h.tokenData appUrl h.activeKeyring)
        kv := h.kv
        timersArmed := h.timersArmed
        timersCancelled := h.timersCancelled }
    | some currentToken =>
      if currentToken.configHash ≠ currentConfigHash then
        let h := handleConfigChange config appUrl configKeyring o timerId st
        { status := .ready
          signalUpdates := some (createSignalUpdates h.tokenData appUrl h.activeKeyring)
          kv := h.kv
          timersArmed := h.timersArmed
          timersCancelled := h.timersCancelled }
      else
        { status := .ready
          signalUpdates := some (createSignalUpdates currentToken appUrl currentKeyring)
          kv := st
          timersArmed := []
          timersCancelled := [] }

/-- The failure points of a rotation wakeup named by the spec: the body of
`onTimer`'s `try` block can throw while generating the key pair (before any
KV write), while persisting key and token (the atomic `kv.app.setMany`), or
while signalling (`lifecycle.sync()`, after generation persisted). -/
inductive RotationOutcome where
  | success
  | generationFailure
  | persistenceFailure
  | signalingFailure
  deriving DecidableEq, Repr

/-- The outcome of one `onTimer` wakeup: the KV store afterwards, the token
signal visible afterwards, and the timer delays armed. -/
structure TimerResult where
  kv : KVState
  publishedToken : Option String
  timersArmed : List Int
  deriving DecidableEq, Repr

/-- `onTimer` from `main.ts`.  On success: generate and persist key+token,
trigger `lifecycle.sync()` (which republishes the freshly stored token), arm
the next rotation at `calculateRotationInterval * 60` seconds, persist the
handle.  On any failure in the `try` block, the `catch` arms a retry at 300
seconds and persists the retry handle; a generation or persistence failure
leaves the store untouched, a signalling failure occurs after the new key and
token were persisted but before anything is republished. -/
def onTimer (config : AppConfig) (appUrl : UrlParts) (o : GenOracle)
    (outcome : RotationOutcome) (nextTimerId retryTimerId : String)
    (publishedToken : Option String) (st : KVState) : TimerResult :=
  match outcome with
  | .success =>
    let p := generateKeyAndToken config appUrl o st
    let nextInterval := calculateRotationInterval config.expirationMinutes
    { kv := { p.2 with rotationTimerId := some nextTimerId }
      publishedToken := some p.1.token
      timersArmed := [nextInterval * 60] }
  | .generationFailure =>
    { kv := { st with rotationTimerId := some retryTimerId }
      publishedToken := publishedToken
      timersArmed := [300] }
  | .persistenceFailure =>
    { kv := { st with rotationTimerId := some retryTimerId }
      publishedToken := publishedToken
      timersArmed := [300] }
  | .signalingFailure =>
    let p := generateKeyAndToken config appUrl o st
    { kv := { p.2 with rotationTimerId := some retryTimerId }
      publishedToken := publishedToken
      timersArmed := [300] }

/-! ### Helper lemmas about the record-assignment model -/

@[simp]
theorem lookupClaim_nil (k : String) : lookupClaim [] k = none := rfl

@[simp]
theorem lookupClaim_cons (p : String × ClaimValue) (l : List (String × ClaimValue))
    (k : String) :
    lookupClaim (p :: l) k = if p.1 = k then some p.2 else lookupClaim l k := by
  by_cases h : p.1 = k <;> simp [lookupClaim, List.find?_cons, h]

@[simp]
theorem jsAssign_lookup_self (l : List (String × ClaimValue)) (k : String)
    (v : ClaimValue) : lookupClaim (jsAssign l k v) k = some v := by
  induction l with
  | nil => simp [jsAssign]
  | cons p rest ih =>
    by_cases h : p.1 = k
    · simp [jsAssign, h]
    · simp [jsAssign, h, ih]

@[simp]
theorem jsAssign_lookup_other (l : List (String × ClaimValue)) (k : String)
    (v : ClaimValue) (k' : String) (h : k' ≠ k) :
    lookupClaim (jsAssign l k v) k' = lookupClaim l k' := by
  induction l with
  | nil =>
    have h' : ¬k = k' := fun hkk => h hkk.symm
    simp [jsAssign, h']
  | cons p rest ih =>
    by_cases hp : p.1 = k
    · subst hp
      have h' : ¬p.1 = k' := fun hkk => h hkk.symm
      simp [jsAssign, h']
    · simp [jsAssign, hp, ih]

@[simp]
theorem jsObject_append (l m : List (String × ClaimValue)) :
    jsObject (l ++ m) = m.foldl (fun acc p => jsAssign acc p.1 p.2) (jsObject l) := by
  simp [jsObject, List.foldl_append]

theorem isPrefixOf_append_self (p s : List Char) :
    p.isPrefixOf (p ++ s) = true := by
  rw [List.isPrefixOf_iff_prefix]
  exact List.prefix_append p s

theorem strStartsWith_append_self (p s : String) :
    strStartsWith (p ++ s) p = true := by
  unfold strStartsWith
  rw [String.data_append]
  exact isPrefixOf_append_self p.data s.data

/-! ### Claim theorems -/

set_option maxRecDepth 8000 in
/-- Claim C1 (code evaluated at the failing input): the configuration
fingerprint is NOT injective on configurations differing in `audience`.  Two
configurations that agree except for audiences `"Aa"` and `"BB"` hash to the
same string, because `hashConfig` uses a 31-multiplier rolling 32-bit hash
(`31 * 65 + 97 = 31 * 66 + 66`), although the repository's own README
documents the fingerprint as a SHA-256 digest. -/
theorem hashConfig_collision :
    hashConfig { expirationMinutes := 120, audience := some "Aa",
                 additionalClaims := none, keyring := some "default" } =
      hashConfig { expirationMinutes := 120, audience := some "BB",
                   additionalClaims := none, keyring := some "default" } ∧
    ({ expirationMinutes := 120, audience := some "Aa",
       additionalClaims := none, keyring := some "default" } : AppConfig) ≠
      { expirationMinutes := 120, audience := some "BB",
        additionalClaims := none, keyring := some "default" } := by
  constructor
  · rfl
  · decide

/-- Claim C8: `calculateRotationInterval` computes `max(5, floor(x / 2))`
for every expiration value, and in particular maps 60 to 30, 10 to 5,
120 to 60, and 11 to 5. -/
theorem calculateRotationInterval_spec :
    (∀ x : Int, calculateRotationInterval x = max 5 (Int.fdiv x 2)) ∧
    calculateRotationInterval 60 = 30 ∧
    calculateRotationInterval 10 = 5 ∧
    calculateRotationInterval 120 = 60 ∧
    calculateRotationInterval 11 = 5 := by
  exact ⟨fun _ => rfl, by decide, by decide, by decide, by decide⟩

/-- Claim C6: every key record produced by `generateKeyAndToken` satisfies
`expiresAt - createdAt = 1800 + expirationMinutes * 60`: the fixed 30-minute
grace period (1800 seconds) plus the configured token lifetime in seconds. -/
theorem key_ttl_invariant (config : AppConfig) (appUrl : UrlParts)
    (o : GenOracle) (st : KVState) :
    ∃ entry : KeyEntry,
      ((generateKeyAndToken config appUrl o st).2).keys = st.keys ++ [entry] ∧
      entry.expiresAt - entry.createdAt = 1800 + config.expirationMinutes * 60 := by
  refine ⟨_, rfl, ?_⟩
  show o.now + (KEY_GRACE_PERIOD_MINUTES + config.expirationMinutes) * 60 - o.now =
    1800 + config.expirationMinutes * 60
  unfold KEY_GRACE_PERIOD_MINUTES
  ring

/-- Claim C3: when no `activeKeyring` signal has ever been published, the
JWKS handler answers HTTP 200 with an empty key set, whatever the key store
holds — never an error, and never any stored key (in particular none of the
default keyring's keys). -/
theorem handleJWKs_no_keyring_empty (st : KVState) :
    handleJWKs none st = { statusCode := 200, keys := [] } := rfl

/-- Claim C5: in the payload built by `generateToken`, any of the seven
standard claim names (`jti`, `iss`, `sub`, `aud`, `exp`, `iat`, `nbf`) that
also occurs in `additionalClaims` resolves to the standard claim's value,
not the custom one: standard claims always override same-named custom
claims. -/
theorem standard_claims_override (config : AppConfig) (appUrl : UrlParts)
    (now : Int) (jti : String) (k : String) (v : ClaimValue)
    (_hmem : (k, v) ∈ config.additionalClaims.getD [])
    (hstd : k ∈ ["jti", "iss", "sub", "aud", "exp", "iat", "nbf"]) :
    lookupClaim (generateTokenPayload config appUrl now jti) k =
      lookupClaim (standardClaims config appUrl now jti) k := by
  simp only [List.mem_cons, List.mem_singleton, List.not_mem_nil, or_false] at hstd
  unfold generateTokenPayload
  rcases hstd with rfl | rfl | rfl | rfl | rfl | rfl | rfl <;>
    simp [standardClaims]

/-- Claim C5 witness: a configuration smuggling a custom `jti` claim still
gets the standard `jti` in the payload. -/
theorem standard_claims_override_witness :
    lookupClaim
      (generateTokenPayload
        { expirationMinutes := 120, audience := none,
          additionalClaims := some [("jti", .str "evil")],
          keyring := some "default" }
        { origin := "https://a.example", hostname := "a.example" } 0 "fresh")
      "jti" =
      lookupClaim
        (standardClaims
          { expirationMinutes := 120, audience := none,
            additionalClaims := some [("jti", .str "evil")],
            keyring := some "default" }
          { origin := "https://a.example", hostname := "a.example" } 0 "fresh")
        "jti" :=
  standard_claims_override _ _ _ _ _ (ClaimValue.str "evil") (by decide) (by decide)

/-- Claim C9 counterexample: with a configured audience that is set but
empty, the `aud` claim is the issuer host, not the configured audience —
`config.audience || hostname` treats the empty string as falsy. -/
theorem aud_empty_audience_falls_back :
    lookupClaim
      (generateTokenPayload
        { expirationMinutes := 120, audience := some "",
          additionalClaims := none, keyring := some "default" }
        { origin := "https://app.example.com", hostname := "app.example.com" }
        0 "j")
      "aud" = some (ClaimValue.str "app.example.com") ∧
    ClaimValue.str "app.example.com" ≠ ClaimValue.str "" := by
  constructor
  · rfl
  · decide

/-- Claim C9 (amended): the `aud` claim of the payload equals the configured
audience when a nonempty audience is configured, and otherwise (audience
unset or empty) equals the host of the issuer URL. -/
theorem aud_claim_amended (config : AppConfig) (appUrl : UrlParts) (now : Int)
    (jti : String) :
    (∀ a : String, config.audience = some a → a ≠ "" →
      lookupClaim (generateTokenPayload config appUrl now jti) "aud" =
        some (ClaimValue.str a)) ∧
    ((config.audience = none ∨ config.audience = some "") →
      lookupClaim (generateTokenPayload config appUrl now jti) "aud" =
        some (ClaimValue.str appUrl.hostname)) := by
  have base : lookupClaim (generateTokenPayload config appUrl now jti) "aud" =
      some (ClaimValue.str (jsOrString config.audience appUrl.hostname)) := by
    unfold generateTokenPayload
    simp [standardClaims]
  constructor
  · intro a ha hne
    rw [base, ha]
    simp [jsOrString, hne]
  · intro h
    rcases h with h | h <;> rw [base, h] <;> simp [jsOrString]

/-- Claim C9 witness: a nonempty configured audience lands in `aud`, and
an absent audience yields the issuer host. -/
theorem aud_claim_amended_witness :
    lookupClaim
      (generateTokenPayload
        { expirationMinutes := 120, audience := some "api.example.com",
          additionalClaims := none, keyring := some "default" }
        { origin := "https://a.example", hostname := "a.example" } 0 "j")
      "aud" = some (ClaimValue.str "api.example.com") ∧
    lookupClaim
      (generateTokenPayload
        { expirationMinutes := 120, audience := none,
          additionalClaims := none, keyring := some "default" }
        { origin := "https://a.example", hostname := "a.example" } 0 "j")
      "aud" = some (ClaimValue.str "a.example") :=
  ⟨(aud_claim_amended
      { expirationMinutes := 120, audience := some "api.example.com",
        additionalClaims := none, keyring := some "default" }
      { origin := "https://a.example", hostname := "a.example" } 0 "j").1
      "api.example.com" rfl (by decide),
   (aud_claim_amended
      { expirationMinutes := 120, audience := none,
        additionalClaims := none, keyring := some "default" }
      { origin := "https://a.example", hostname := "a.example" } 0 "j").2
      (Or.inl rfl)⟩

/-- Claim C7: a reconciliation pass with `expirationMinutes < 10` terminates
failed with the human-readable diagnostic and performs no further action (no
store mutation, no timer armed or cancelled, no signal update); with
`expirationMinutes ≥ 10` the validation passes and the pass completes
ready. -/
theorem onSync_validates_expiration (config : AppConfig) (appUrl : UrlParts)
    (signalsKeyring : Option String) (o : GenOracle) (timerId : String)
    (st : KVState) :
    (config.expirationMinutes < 10 →
      onSync config appUrl signalsKeyring o timerId st =
        { status := .failed "Token expiration time must be at least 10 minutes"
          signalUpdates := none
          kv := st
          timersArmed := []
          timersCancelled := [] }) ∧
    (10 ≤ config.expirationMinutes →
      (onSync config appUrl signalsKeyring o timerId st).status = .ready) := by
  constructor
  · intro h
    unfold onSync
    rw [if_pos h]
  · intro h
    unfold onSync
    rw [if_neg (by omega)]
    split
    · rfl
    · dsimp only
      split <;> rfl

/-- Claim C7 witness: a 5-minute configuration fails with the diagnostic and
mutates nothing; a 120-minute configuration passes validation. -/
theorem onSync_validates_expiration_witness :
    onSync
        { expirationMinutes := 5, audience := none, additionalClaims := none,
          keyring := some "default" }
        { origin := "https://a.example", hostname := "a.example" } none
        { newKeyId := "kid", publicKey := "pk", now := 0, jti := "j" } "t1"
        { keys := [], currentToken := none, rotationTimerId := none } =
      { status := .failed "Token expiration time must be at least 10 minutes"
        signalUpdates := none
        kv := { keys := [], currentToken := none, rotationTimerId := none }
        timersArmed := []
        timersCancelled := [] } ∧
    (onSync
        { expirationMinutes := 120, audience := none, additionalClaims := none,
          keyring := some "default" }
        { origin := "https://a.example", hostname := "a.example" } none
        { newKeyId := "kid", publicKey := "pk", now := 0, jti := "j" } "t1"
        { keys := [], currentToken := none, rotationTimerId := none }).status =
      SyncStatus.ready :=
  ⟨(onSync_validates_expiration _ _ _ _ _ _).1 (by decide),
   (onSync_validates_expiration _ _ _ _ _ _).2 (by decide)⟩

/-- Claim C2: when a persisted token exists whose stored fingerprint equals
the current configuration's fingerprint, `onSync` republishes the stored
token byte-identically, publishes `activeKeyring` at its previously
published value (not recomputed from `config.keyring`, which is universally
quantified here), performs no store or timer mutation — and a second
reconciliation with the identical configuration returns the identical
result. -/
theorem onSync_reuse_preserves (config : AppConfig) (appUrl : UrlParts)
    (k : String) (t : TokenData) (o o₂ : GenOracle) (timerId timerId₂ : String)
    (st : KVState) (hk : k ≠ "") (h10 : 10 ≤ config.expirationMinutes)
    (ht : st.currentToken = some t) (hh : t.configHash = hashConfig config) :
    onSync config appUrl (some k) o timerId st =
      { status := .ready
        signalUpdates := some
          { token := t.token, expiresAt := t.expiresAt,
            issuer := appUrl.origin, keyring := some k }
        kv := st
        timersArmed := []
        timersCancelled := [] } ∧
    onSync config appUrl (some k) o₂ timerId₂
        (onSync config appUrl (some k) o timerId st).kv =
      onSync config appUrl (some k) o timerId st := by
  have key : ∀ (o' : GenOracle) (tid' : String),
      onSync config appUrl (some k) o' tid' st =
        { status := .ready
          signalUpdates := some
            { token := t.token, expiresAt := t.expiresAt,
              issuer := appUrl.origin, keyring := some k }
          kv := st
          timersArmed := []
          timersCancelled := [] } := by
    intro o' tid'
    unfold onSync
    rw [if_neg (by omega), ht]
    simp [hh, jsOrOpt, createSignalUpdates, hk]
  refine ⟨key o timerId, ?_⟩
  rw [key o timerId]
  exact key o₂ timerId₂

set_option maxRecDepth 8000 in
/-- Claim C2 witness: a matching-fingerprint reconciliation leaves the store
untouched, republishes the stored token and keeps the published keyring. -/
theorem onSync_reuse_preserves_witness :
    onSync
        { expirationMinutes := 120, audience := none, additionalClaims := none,
          keyring := some "default" }
        { origin := "https://a.example", hostname := "a.example" }
        (some "default")
        { newKeyId := "kid", publicKey := "pk", now := 0, jti := "j" } "t1"
        { keys := []
          currentToken := some
            { token := "tok", expiresAt := 999,
              configHash := hashConfig
                { expirationMinutes := 120, audience := none,
                  additionalClaims := none, keyring := some "default" } }
          rotationTimerId := none } =
      { status := .ready
        signalUpdates := some
          { token := "tok", expiresAt := 999, issuer := "https://a.example",
            keyring := some "default" }
        kv :=
          { keys := []
            currentToken := some
              { token := "tok", expiresAt := 999,
                configHash := hashConfig
                  { expirationMinutes := 120, audience := none,
                    additionalClaims := none, keyring := some "default" } }
            rotationTimerId := none }
        timersArmed := []
        timersCancelled := [] } :=
  (onSync_reuse_preserves
    { expirationMinutes := 120, audience := none, additionalClaims := none,
      keyring := some "default" }
    { origin := "https://a.example", hostname := "a.example" }
    "default"
    { token := "tok", expiresAt := 999,
      configHash := hashConfig
        { expirationMinutes := 120, audience := none,
          additionalClaims := none, keyring := some "default" } }
    { newKeyId := "kid", publicKey := "pk", now := 0, jti := "j" }
    { newKeyId := "kid", publicKey := "pk", now := 0, jti := "j" }
    "t1" "t1"
    { keys := []
      currentToken := some
        { token := "tok", expiresAt := 999,
          configHash := hashConfig
            { expirationMinutes := 120, audience := none,
              additionalClaims := none, keyring := some "default" } }
      rotationTimerId := none }
    (by decide) (by decide) rfl rfl).1

/-- Claim C4: when a rotation wakeup fails in generation, persistence or
signalling, the handler arms exactly one retry wakeup at the fixed 300-second
delay, persists the retry handle, and leaves the previously published token
and every previously stored key unchanged. -/
theorem onTimer_failure_schedules_retry (config : AppConfig) (appUrl : UrlParts)
    (o : GenOracle) (outcome : RotationOutcome)
    (nextTimerId retryTimerId : String) (publishedToken : Option String)
    (st : KVState) (h : outcome ≠ RotationOutcome.success) :
    (onTimer config appUrl o outcome nextTimerId retryTimerId publishedToken
        st).timersArmed = [300] ∧
    (onTimer config appUrl o outcome nextTimerId retryTimerId publishedToken
        st).kv.rotationTimerId = some retryTimerId ∧
    (onTimer config appUrl o outcome nextTimerId retryTimerId publishedToken
        st).publishedToken = publishedToken ∧
    ∀ e ∈ st.keys,
      e ∈ (onTimer config appUrl o outcome nextTimerId retryTimerId
            publishedToken st).kv.keys := by
  cases outcome with
  | success => exact absurd rfl h
  | generationFailure => exact ⟨rfl, rfl, rfl, fun e he => he⟩
  | persistenceFailure => exact ⟨rfl, rfl, rfl, fun e he => he⟩
  | signalingFailure =>
    exact ⟨rfl, rfl, rfl, fun e he => List.mem_append_left _ he⟩

/-- Claim C4 witness: a generation failure at a concrete state arms the
single 300-second retry and keeps the published token. -/
theorem onTimer_failure_schedules_retry_witness :
    (onTimer
        { expirationMinutes := 120, audience := none, additionalClaims := none,
          keyring := some "default" }
        { origin := "https://a.example", hostname := "a.example" }
        { newKeyId := "kid", publicKey := "pk", now := 0, jti := "j" }
        RotationOutcome.generationFailure "t2" "t3" (some "tok")
        { keys := [], currentToken := none, rotationTimerId := some "t1" }
      ).timersArmed = [300] :=
  (onTimer_failure_schedules_retry _ _ _ _ _ _ _ _ (by decide)).1

/-- Claim C10: a bootstrap reconciliation (no persisted token) with
`config.keyring` undefined stores the new public key under the
`key:default:` prefix, yet publishes the keyring signal as the unset
configured value (`none`) rather than `"default"`; a subsequent JWKS request
with no keyring signal then returns an empty key set although a live key
exists under the default keyring. -/
theorem bootstrap_undefined_keyring_mismatch (config : AppConfig)
    (appUrl : UrlParts) (o : GenOracle) (timerId : String) (st : KVState)
    (h10 : 10 ≤ config.expirationMinutes) (hk : config.keyring = none)
    (ht : st.currentToken = none) :
    ∃ entry : KeyEntry,
      (onSync config appUrl none o timerId st).kv.keys = st.keys ++ [entry] ∧
      entry.key = keyPrefixFor "default" ++ o.newKeyId ∧
      (∃ u : SignalUpdates,
        (onSync config appUrl none o timerId st).signalUpdates = some u ∧
        u.keyring = none) ∧
      handleJWKs none (onSync config appUrl none o timerId st).kv =
        { statusCode := 200, keys := [] } ∧
      (handleJWKs (some "default")
          (onSync config appUrl none o timerId st).kv).keys ≠ [] := by
  have hsync : onSync config appUrl none o timerId st =
      { status := .ready
        signalUpdates := some
          { token := (generateToken config appUrl o.newKeyId o.now o.jti).token
            expiresAt :=
              (generateToken config appUrl o.newKeyId o.now o.jti).expiresAt
            issuer := appUrl.origin
            keyring := none }
        kv :=
          { keys := st.keys ++
              [{ key := keyPrefixFor "default" ++ o.newKeyId
                 value := o.publicKey
                 createdAt := o.now
                 expiresAt := o.now +
                   (KEY_GRACE_PERIOD_MINUTES + config.expirationMinutes) * 60 }]
            currentToken := some (generateToken config appUrl o.newKeyId o.now o.jti)
            rotationTimerId := some timerId }
        timersArmed := [calculateRotationInterval config.expirationMinutes * 60]
        timersCancelled := [] } := by
    unfold onSync
    rw [if_neg (by omega), ht, hk]
    simp [handleInitialSetup, generateKeyAndToken, createSignalUpdates, hk,
      jsOrString]
  refine ⟨{ key := keyPrefixFor "default" ++ o.newKeyId
            value := o.publicKey
            createdAt := o.now
            expiresAt := o.now +
              (KEY_GRACE_PERIOD_MINUTES + config.expirationMinutes) * 60 },
          ?_, rfl, ?_, ?_, ?_⟩
  · rw [hsync]
  · rw [hsync]
    exact ⟨_, rfl, rfl⟩
  · rfl
  · rw [hsync]
    simp [handleJWKs, strStartsWith_append_self]

/-- Claim C10 witness: the concrete bootstrap with an undefined keyring. -/
theorem bootstrap_undefined_keyring_mismatch_witness :
    ((onSync
        { expirationMinutes := 120, audience := none, additionalClaims := none,
          keyring := none }
        { origin := "https://a.example", hostname := "a.example" } none
        { newKeyId := "kid", publicKey := "pk", now := 0, jti := "j" } "t1"
        { keys := [], currentToken := none, rotationTimerId := none }).kv.keys
      ).length = 1 := by
  obtain ⟨entry, h1, -, -, -, -⟩ :=
    bootstrap_undefined_keyring_mismatch
      { expirationMinutes := 120, audience := none, additionalClaims := none,
        keyring := none }
      { origin := "https://a.example", hostname := "a.example" }
      { newKeyId := "kid", publicKey := "pk", now := 0, jti := "j" } "t1"
      { keys := [], currentToken := none, rotationTimerId := none }
      (by decide) rfl rfl
  rw [h1]
  rfl

end OIDC
